import Mathlib

/-!
Shallow embedding of the cut-optimizer-2d-server HTTP façade.

The repository snapshot contains two revisions of the same server:
`src/main.rs` is a complete warp-based program, and `src/server.rs` is the
axum-based revision (whose `main.rs`/`Opt` is not part of the snapshot;
`server.rs` refers to `crate::Opt` with `timeout` and `max_requests` fields).
The warp revision is embedded under the `MainRs` namespace and the axum
revision under the `ServerRs` namespace.  The optimization engine
(`cut_optimizer_2d`) is an external library: its data types are modelled
from the wire schema used by the server and its tests, and its two entry
points are passed in as function parameters where the worker closure needs
them.
-/

set_option autoImplicit false

/-- Minimal JSON value model for the response bodies the server builds. -/
inductive Json where
  | null
  | bool (b : Bool)
  | num (n : Nat)
  | str (s : String)
  | arr (elems : List Json)
  | obj (fields : List (String × Json))

/-- Look a key up in a JSON object; `none` on non-objects or absent keys. -/
def Json.getField : Json → String → Option Json
  | .obj fields, key => fields.lookup key
  | _, _ => none

/-- Pattern direction of a piece, as it appears on the wire (`"none"` in all
fixtures of the repository's tests). -/
inductive PatternDirection where
  | none
  | parallelToWidth
  | parallelToLength
deriving DecidableEq

/-- A stock piece of the external engine's input model, with the fields the
wire schema exposes: width, length, pattern direction and an optional price. -/
structure StockPiece where
  width : Nat
  length : Nat
  patternDirection : PatternDirection
  price : Option Nat
deriving DecidableEq

/-- A demanded cut piece; `externalId` is the opaque client-supplied
correlation key that must round-trip into error payloads. -/
structure CutPiece where
  externalId : Nat
  width : Nat
  length : Nat
  patternDirection : PatternDirection
  canRotate : Bool
deriving DecidableEq

/-- Serialization of a `CutPiece` into the camelCase wire JSON. -/
def CutPiece.toJson (p : CutPiece) : Json :=
  .obj [("externalId", .num p.externalId),
        ("width", .num p.width),
        ("length", .num p.length),
        ("patternDirection",
          .str (match p.patternDirection with
                | .none => "none"
                | .parallelToWidth => "parallelToWidth"
                | .parallelToLength => "parallelToLength")),
        ("canRotate", .bool p.canRotate)]

/-- The engine's solution is opaque to the server beyond being serializable;
it is passed through unmodified, so it is modelled as its JSON rendering. -/
structure Solution where
  json : Json

/-- The two engine entry points selectable by the `method` field, identical
in both revisions (`serde` camelCase deserialization). -/
inductive OptimizeMethod where
  | guillotine
  | nested
deriving DecidableEq

/-- Result of one engine invocation: `Result of Solution, Error` where the only
engine error variant is `Error.NoFitForCutPiece` wrapping the offending piece. -/
inductive EngineResult where
  | ok (solution : Solution)
  | noFit (cutPiece : CutPiece)

/-- What the async side observes when awaiting the oneshot completion
channel: either the worker's result was received, or the channel closed
before a result was sent (worker panicked or was dropped). -/
inductive ChannelOutcome where
  | received (result : EngineResult)
  | closed

/-- Severity of a log statement. -/
inductive LogLevel where
  | error
  | info
deriving DecidableEq

/-- One log record emitted by the program. -/
structure LogEntry where
  level : LogLevel
  msg : String
deriving DecidableEq

/-- Display text of tokio's oneshot receive error (`RecvError`), which is
what `e.to_string()` yields in the channel-closed branch of both handlers. -/
def recvErrorDescription : String := "channel closed"

/-- The message the worker closure logs when the receiver side of the
channel is gone before the result could be sent (both revisions). -/
def recvClosedLogMsg : String :=
  "Error: receiver side of channel closed before the result could be sent."

/-- The engine's builder configuration assembled by the conversions from
`OptimizerInput`.  `Optimizer.new` starts with empty piece lists; mixed
stock sizes are allowed unless explicitly disabled. -/
structure Optimizer where
  random_seed : Nat
  cut_width : Nat
  stock_pieces : List StockPiece
  cut_pieces : List CutPiece
  allow_mixed_stock_sizes : Bool

/-- Fresh builder as produced by `Optimizer::new()`; every field that the
conversions set is later overwritten. -/
def Optimizer.new : Optimizer :=
  { random_seed := 0
    cut_width := 0
    stock_pieces := []
    cut_pieces := []
    allow_mixed_stock_sizes := true }

/-- Shared test fixture: the stock pieces of the repository's `TEST_INPUT`. -/
def sampleStockPieces : List StockPiece :=
  [{ width := 48, length := 96, patternDirection := .none, price := some 0 },
   { width := 48, length := 120, patternDirection := .none, price := some 0 }]

/-- Shared test fixture: the cut pieces of the repository's `TEST_INPUT`. -/
def sampleCutPieces : List CutPiece :=
  [{ externalId := 1, width := 10, length := 30, patternDirection := .none, canRotate := true },
   { externalId := 2, width := 45, length := 100, patternDirection := .none, canRotate := true }]

/-- The cut piece of the repository's non-fitting test fixture (length 300
exceeds every stock length). -/
def sampleNoFitPiece : CutPiece :=
  { externalId := 1, width := 10, length := 300, patternDirection := .none, canRotate := true }

namespace MainRs

/-- Decoded request body of the warp revision (`src/main.rs`):
`method` and `cut_width` are required, `random_seed` is `Option<u64>`. -/
structure OptimizerInput where
  method : OptimizeMethod
  random_seed : Option Nat
  cut_width : Nat
  stock_pieces : List StockPiece
  cut_pieces : List CutPiece

/-- Field presence of a syntactically valid JSON body against the warp
revision's `OptimizerInput` schema (unknown extra fields are ignored by
serde's default behavior). -/
structure JsonBody where
  method : Option OptimizeMethod
  randomSeed : Option Nat
  cutWidth : Option Nat
  stockPieces : Option (List StockPiece)
  cutPieces : Option (List CutPiece)

/-- Serde deserialization of the warp revision's `OptimizerInput`: every
field without `Option` type is required and its absence is a decode error. -/
def deserializeOptimizerInput (j : JsonBody) : Except String OptimizerInput :=
  match j.method with
  | none => .error "missing field \x60method\x60"
  | some method =>
    match j.cutWidth with
    | none => .error "missing field \x60cutWidth\x60"
    | some cutWidth =>
      match j.stockPieces with
      | none => .error "missing field \x60stockPieces\x60"
      | some stockPieces =>
        match j.cutPieces with
        | none => .error "missing field \x60cutPieces\x60"
        | some cutPieces =>
          .ok { method := method
                random_seed := j.randomSeed
                cut_width := cutWidth
                stock_pieces := stockPieces
                cut_pieces := cutPieces }

/-- The `Into<Optimizer>` conversion of `src/main.rs` lines 31-41:
`random_seed` defaults to 1 when absent; the stock and cut pieces are added
to a fresh builder; `allow_mixed_stock_sizes` is never touched. -/
def toOptimizer (input : OptimizerInput) : Optimizer :=
  { Optimizer.new with
      random_seed := input.random_seed.getD 1
      cut_width := input.cut_width
      stock_pieces := Optimizer.new.stock_pieces ++ input.stock_pieces
      cut_pieces := Optimizer.new.cut_pieces ++ input.cut_pieces }

/-- Serialization of `ApiError` (`src/main.rs` lines 43-60): the body is the
nested envelope with an outer `error` key wrapping `message` and `data`. -/
def apiErrorJson (message : String) (data : Json) : Json :=
  .obj [("error", .obj [("message", .str message), ("data", data)])]

/-- The engine call the worker closure performs (`src/main.rs` lines 146-151):
dispatch on `method` after converting the input into the builder.  The two
engine entry points are external and passed as parameters. -/
def workerResult (runGuillotine runNested : Optimizer → EngineResult)
    (input : OptimizerInput) : EngineResult :=
  match input.method with
  | .guillotine => runGuillotine (toOptimizer input)
  | .nested => runNested (toOptimizer input)

/-- The whole rayon worker closure (`src/main.rs` lines 145-155): run the
engine, then send the result over the oneshot channel; if the receiver is
gone the send fails and the closure only logs at error severity and returns
normally.  Output: the result delivered through the channel (if any) and the
log entries the closure emitted. -/
def workerClosure (runGuillotine runNested : Optimizer → EngineResult)
    (input : OptimizerInput) (receiverAlive : Bool) :
    Option EngineResult × List LogEntry :=
  let result := workerResult runGuillotine runNested input
  if receiverAlive then (some result, [])
  else (none, [{ level := .error, msg := recvClosedLogMsg }])

/-- The async side of `optimize` (`src/main.rs` lines 157-174), keyed on the
channel outcome: success is 200 with the solution, a no-fit engine error is
422 with the `ApiError` envelope around the offending cut piece, and a
closed channel is 500 with the receive error's description as `data`.  The
second component records the log entries this async branch emits: the code
contains no log statement here (the only `error!` is inside the worker
closure).  The error type is `Infallible`, so every branch produces a reply. -/
def optimizeHandler (_input : OptimizerInput) (co : ChannelOutcome) :
    (Nat × Json) × List LogEntry :=
  match co with
  | .received (.ok solution) => ((200, solution.json), [])
  | .received (.noFit cutPiece) =>
      ((422,
        apiErrorJson "The following cut piece doesn\x27t fit any stock pieces"
          cutPiece.toJson), [])
  | .closed =>
      ((500,
        apiErrorJson "Couldn\x27t receive result from channel"
          (.str recvErrorDescription)), [])

/-- HTTP methods exercised by the repository's tests. -/
inductive HttpMethod where
  | get
  | post
  | put
  | delete
  | patch
deriving DecidableEq

/-- A request body before JSON decoding: either not valid JSON at all, or a
valid JSON object abstracted by which schema fields it carries. -/
inductive RawBody where
  | malformed (parseErrMsg : String)
  | wellFormed (j : JsonBody)

/-- An inbound HTTP request as the warp filter chain observes it. -/
structure HttpRequest where
  method : HttpMethod
  path : List String
  contentLength : Nat
  body : RawBody

/-- Outcome of the warp filter chain before/at the handler. -/
inductive FilterOutcome where
  | notFound
  | methodNotAllowed
  | payloadTooLarge
  | badRequest (msg : String)
  | handled (input : OptimizerInput)

/-- The warp filter chain of `optimize_filter` (`src/main.rs` lines 131-139)
in its source order: path, then method, then `content_length_limit`, and
only then `warp::body::json` (parse + schema decode).  A rejected
content-length therefore never reaches the JSON stage. -/
def optimizeFilter (maxContentLength : Nat) (req : HttpRequest) : FilterOutcome :=
  if req.path = ["optimize"] then
    if req.method = HttpMethod.post then
      if req.contentLength ≤ maxContentLength then
        match req.body with
        | .malformed msg => .badRequest msg
        | .wellFormed j =>
          match deserializeOptimizerInput j with
          | .error msg => .badRequest msg
          | .ok input => .handled input
      else .payloadTooLarge
    else .methodNotAllowed
  else .notFound

/-- The CLI options of the warp revision (`src/main.rs` lines 79-99). -/
structure Opt where
  ip : String
  port : Nat
  max_content_length : Nat
  quiet : Bool
  verbose : Nat

/-- The defaults structopt supplies when no flag is given:
`--ip 127.0.0.1 --port 3030 --max-content-length 32896`, not quiet,
verbosity 0. -/
def defaultOpt : Opt :=
  { ip := "127.0.0.1"
    port := 3030
    max_content_length := 32896
    quiet := false
    verbose := 0 }

/-- A socket address as produced by a successful `SocketAddr` parse. -/
structure SocketAddr where
  host : String
  port : Nat

/-- Terminal state of the process after startup. -/
inductive ProcOutcome where
  | panicked
  | serving (addr : SocketAddr)

/-- Observable startup trace of `main`: how it ended, which error-severity
log records it wrote, and whether the server was started. -/
structure MainTrace where
  outcome : ProcOutcome
  errorLogs : List LogEntry
  served : Bool

/-- Startup control flow of `main` (`src/main.rs` lines 101-116),
parameterized by the result of the standard library's socket-address parse
of `format!("ip:port")`: on a parse failure `socket_address` calls
`.unwrap()`, so the process panics before `warp::serve` runs — it exits
without serving, and without writing any log record (the panic payload is
abstracted away). -/
def runMain (parsedAddr : Option SocketAddr) : MainTrace :=
  match parsedAddr with
  | none => { outcome := .panicked, errorLogs := [], served := false }
  | some addr => { outcome := .serving addr, errorLogs := [], served := true }

/-- The decoded `TEST_INPUT` fixture of the warp revision's tests. -/
def sampleInput : OptimizerInput :=
  { method := .guillotine
    random_seed := some 1
    cut_width := 2
    stock_pieces := sampleStockPieces
    cut_pieces := sampleCutPieces }

/-- The `TEST_INPUT` body with its `method` field removed. -/
def missingMethodBody : JsonBody :=
  { method := none
    randomSeed := some 1
    cutWidth := some 2
    stockPieces := some sampleStockPieces
    cutPieces := some sampleCutPieces }

/-- `sampleInput` without a `randomSeed`. -/
def noSeedInput : OptimizerInput :=
  { sampleInput with random_seed := none }

/-- An oversized request: content length 101 against a configured limit of
100 (the spec's own suggested test), carrying an unparseable body. -/
def oversizedRequest : HttpRequest :=
  { method := .post
    path := ["optimize"]
    contentLength := 101
    body := .malformed "unexpected end of input" }

end MainRs

namespace ServerRs

/-- Decoded request body of the axum revision (`src/server.rs` lines 93-102):
like the warp revision plus the optional `allow_mixed_stock_sizes`. -/
structure OptimizerInput where
  method : OptimizeMethod
  random_seed : Option Nat
  cut_width : Nat
  stock_pieces : List StockPiece
  cut_pieces : List CutPiece
  allow_mixed_stock_sizes : Option Bool

/-- Field presence of a syntactically valid JSON body against the axum
revision's `OptimizerInput` schema. -/
structure JsonBody where
  method : Option OptimizeMethod
  randomSeed : Option Nat
  cutWidth : Option Nat
  stockPieces : Option (List StockPiece)
  cutPieces : Option (List CutPiece)
  allowMixedStockSizes : Option Bool

/-- Serde deserialization of the axum revision's `OptimizerInput`: `method`,
`cutWidth`, `stockPieces` and `cutPieces` are required; the two `Option`
fields decode to `none` when absent. -/
def deserializeOptimizerInput (j : JsonBody) : Except String OptimizerInput :=
  match j.method with
  | none => .error "missing field \x60method\x60"
  | some method =>
    match j.cutWidth with
    | none => .error "missing field \x60cutWidth\x60"
    | some cutWidth =>
      match j.stockPieces with
      | none => .error "missing field \x60stockPieces\x60"
      | some stockPieces =>
        match j.cutPieces with
        | none => .error "missing field \x60cutPieces\x60"
        | some cutPieces =>
          .ok { method := method
                random_seed := j.randomSeed
                cut_width := cutWidth
                stock_pieces := stockPieces
                cut_pieces := cutPieces
                allow_mixed_stock_sizes := j.allowMixedStockSizes }

/-- The `From<OptimizerInput> for Optimizer` conversion (`src/server.rs`
lines 104-115): `random_seed` defaults to 1 and `allow_mixed_stock_sizes`
defaults to `true` when absent. -/
def toOptimizer (input : OptimizerInput) : Optimizer :=
  { Optimizer.new with
      random_seed := input.random_seed.getD 1
      cut_width := input.cut_width
      stock_pieces := Optimizer.new.stock_pieces ++ input.stock_pieces
      cut_pieces := Optimizer.new.cut_pieces ++ input.cut_pieces
      allow_mixed_stock_sizes := input.allow_mixed_stock_sizes.getD true }

/-- Serialization of the `error` helper's body (`src/server.rs` lines
133-138): a flat object with `message` and `data` keys, with no outer
`error` wrapper. -/
def flatErrorJson (message : String) (data : Json) : Json :=
  .obj [("message", .str message), ("data", data)]

/-- The engine call of the axum worker closure (`src/server.rs` lines 56-61). -/
def workerResult (runGuillotine runNested : Optimizer → EngineResult)
    (input : OptimizerInput) : EngineResult :=
  match input.method with
  | .guillotine => runGuillotine (toOptimizer input)
  | .nested => runNested (toOptimizer input)

/-- The rayon worker closure of the axum revision (`src/server.rs` lines
55-65), with the same best-effort send as the warp revision. -/
def workerClosure (runGuillotine runNested : Optimizer → EngineResult)
    (input : OptimizerInput) (receiverAlive : Bool) :
    Option EngineResult × List LogEntry :=
  let result := workerResult runGuillotine runNested input
  if receiverAlive then (some result, [])
  else (none, [{ level := .error, msg := recvClosedLogMsg }])

/-- The async side of the axum `optimize` handler (`src/server.rs` lines
67-83), keyed on the channel outcome: a closed channel maps to 500 with the
flat error body carrying the receive error's description, a no-fit engine
error maps to 422 with the flat error body carrying the offending cut piece,
and success maps to 200 with the solution.  The second component records the
log entries this async branch emits: the code contains no log statement in
these lines (the only `error!` is inside the worker closure). -/
def optimizeStep (_input : OptimizerInput) (co : ChannelOutcome) :
    (Nat × Json) × List LogEntry :=
  match co with
  | .closed =>
      ((500,
        flatErrorJson "Couldn\x27t receive result from channel"
          (.str recvErrorDescription)), [])
  | .received (.noFit cutPiece) =>
      ((422,
        flatErrorJson "Cut piece doesn\x27t fit in any stock pieces"
          cutPiece.toJson), [])
  | .received (.ok solution) => ((200, solution.json), [])

/-- The boxed error that can bubble out of the tower middleware stack into
`HandleErrorLayer`: the timeout layer's `Elapsed`, the load-shed layer's
`Overloaded`, or any other boxed error with its display text. -/
inductive BoxError where
  | elapsed
  | overloaded
  | other (desc : String)
deriving DecidableEq

/-- Display text of `tower::load_shed::error::Overloaded`. -/
def overloadedDescription : String := "load shed due to overload"

/-- Display text of `tower::timeout::error::Elapsed`. -/
def elapsedDescription : String := "request timed out"

/-- Display text of a boxed middleware error (what `format!` interpolates). -/
def BoxError.description : BoxError → String
  | .elapsed => elapsedDescription
  | .overloaded => overloadedDescription
  | .other desc => desc

/-- The error-normalization function `handle_error` (`src/server.rs` lines
117-129): only `Elapsed` is special-cased to 408; every other error —
including the load-shed `Overloaded` — falls into the 500 branch whose
message interpolates the error's display text. -/
def handle_error : BoxError → Nat × String
  | .elapsed => (408, "Request took too long")
  | e => (500, "Unhandled internal error: " ++ e.description)

/-- Shared in-flight counter maintained by the concurrency-limit layer. -/
structure AdmissionState where
  inFlight : Nat

/-- What the admission stack decides for one arriving request. -/
inductive AdmissionDecision where
  | admitted (next : AdmissionState)
  | shed

/-- Readiness of the concurrency-limit layer (`concurrency_limit` in the
`app` middleware stack, `src/server.rs` line 38): ready only while strictly
fewer than `maxRequests` requests are in flight. -/
def concurrencyLimitReady (maxRequests : Nat) (s : AdmissionState) : Bool :=
  decide (s.inFlight < maxRequests)

/-- The load-shed layer (`src/server.rs` line 36): when the inner
concurrency-limit service is not ready, the arriving request is rejected
immediately with an `Overloaded` error instead of waiting for capacity;
otherwise it is admitted and the in-flight count rises. -/
def loadShed (maxRequests : Nat) (s : AdmissionState) : AdmissionDecision :=
  if concurrencyLimitReady maxRequests s then .admitted { inFlight := s.inFlight + 1 }
  else .shed

/-- Composition of the stack for an over-cap arrival: a shed request's
`Overloaded` error bubbles to `HandleErrorLayer`, so the client response is
`handle_error` applied to `Overloaded`; an admitted request produces none. -/
def shedResponse (maxRequests : Nat) (s : AdmissionState) : Option (Nat × String) :=
  match loadShed maxRequests s with
  | .shed => some (handle_error .overloaded)
  | .admitted _ => none

/-- Modelled from the spec: the axum revision's `Opt` is not under `src/`
(only `server.rs` and its tests reference `crate::Opt`, reading `timeout`
and `max_requests`).  Per the spec's configuration section it carries listen
host/IP, port, max body size, per-request timeout seconds, max concurrent
requests and a quiet flag. -/
structure OptAxum where
  ip : String
  port : Nat
  max_content_length : Nat
  timeout : Nat
  max_requests : Nat
  quiet : Bool

/-- Modelled from the spec: the documented defaults of the axum revision's
`Opt` — host `0.0.0.0`, port 3030, max body 32896, timeout 60 seconds, at
most 100 concurrent requests. -/
def defaultOptAxum : OptAxum :=
  { ip := "0.0.0.0"
    port := 3030
    max_content_length := 32896
    timeout := 60
    max_requests := 100
    quiet := false }

/-- The decoded `TEST_INPUT` fixture of the axum revision's tests. -/
def sampleInput : OptimizerInput :=
  { method := .guillotine
    random_seed := some 1
    cut_width := 2
    stock_pieces := sampleStockPieces
    cut_pieces := sampleCutPieces
    allow_mixed_stock_sizes := none }

/-- The `TEST_INPUT` body with its `method` field removed. -/
def missingMethodBody : JsonBody :=
  { method := none
    randomSeed := some 1
    cutWidth := some 2
    stockPieces := some sampleStockPieces
    cutPieces := some sampleCutPieces
    allowMixedStockSizes := none }

/-- `sampleInput` without a `randomSeed` (and no mixed-stock flag). -/
def noSeedInput : OptimizerInput :=
  { sampleInput with random_seed := none }

end ServerRs

/-! Claim theorems. -/

/-- C1 (counterexample): with the default cap of 100 and 100 requests in
flight, an additional arrival is shed, but the client response produced by
the stack is HTTP 500 with the message "Unhandled internal error: load shed
due to overload" — not a 503-class status and not a "too many requests"
style message, so the claim as stated is false. -/
theorem c1_load_shed_counterexample :
    ServerRs.shedResponse 100 { inFlight := 100 } =
      some (500, "Unhandled internal error: load shed due to overload") ∧
    (ServerRs.shedResponse 100 { inFlight := 100 }).map Prod.fst ≠ some 503 :=
  ⟨rfl, by decide⟩

/-- C1 (amended): once the concurrency cap is saturated, an additional
arriving request is rejected immediately (the load-shed layer never waits
for capacity), and the client receives HTTP 500 with the message "Unhandled
internal error: load shed due to overload", because `handle_error` has no
special case for the load-shed `Overloaded` error. -/
theorem c1_load_shed_amended :
    ∀ (maxRequests : Nat) (s : ServerRs.AdmissionState),
      maxRequests ≤ s.inFlight →
      ServerRs.shedResponse maxRequests s =
        some (500, "Unhandled internal error: load shed due to overload") := by
  intro maxRequests s h
  simp [ServerRs.shedResponse, ServerRs.loadShed, ServerRs.concurrencyLimitReady,
    Nat.not_lt.mpr h]
  rfl

/-- C1 (witness): the amended statement evaluated at the default cap 100
with 100 requests in flight. -/
theorem c1_load_shed_amended_witness :
    ServerRs.shedResponse 100 { inFlight := 100 } =
      some (500, "Unhandled internal error: load shed due to overload") :=
  c1_load_shed_amended 100 { inFlight := 100 } (by decide)

/-- C2: the error-normalization layer maps the timeout layer's `Elapsed`
error to HTTP 408 with "Request took too long", and every other boxed error
to HTTP 500 with a message interpolating that error's description; being a
total function of the boxed error, it lets no error escape unnormalized. -/
theorem c2_handle_error_normalizes :
    ∀ e : ServerRs.BoxError,
      ServerRs.handle_error e =
        if e = ServerRs.BoxError.elapsed then (408, "Request took too long")
        else (500, "Unhandled internal error: " ++ e.description) := by
  intro e
  cases e <;> rfl

/-- C3 (counterexample): the repository's `TEST_INPUT` body with its
`method` field removed is rejected by the decoder with a missing-field
error, not accepted and defaulted to guillotine. -/
theorem c3_missing_method_counterexample :
    ServerRs.deserializeOptimizerInput ServerRs.missingMethodBody =
      Except.error "missing field \x60method\x60" :=
  rfl

/-- C3 (amended): `method` is a required field in both revisions — a body
omitting it is a decode error; the genuinely optional fields are defaulted:
a body omitting `randomSeed` is optimized with seed 1, and (in the axum
revision) a body omitting `allowMixedStockSizes` is optimized with mixed
stock sizes allowed. -/
theorem c3_defaults_amended :
    ∀ (j : ServerRs.JsonBody) (jm : MainRs.JsonBody)
      (inp : ServerRs.OptimizerInput) (inpM : MainRs.OptimizerInput),
      (j.method = none →
        ∃ msg, ServerRs.deserializeOptimizerInput j = Except.error msg) ∧
      (jm.method = none →
        ∃ msg, MainRs.deserializeOptimizerInput jm = Except.error msg) ∧
      (inp.random_seed = none → (ServerRs.toOptimizer inp).random_seed = 1) ∧
      (inpM.random_seed = none → (MainRs.toOptimizer inpM).random_seed = 1) ∧
      (inp.allow_mixed_stock_sizes = none →
        (ServerRs.toOptimizer inp).allow_mixed_stock_sizes = true) := by
  intro j jm inp inpM
  refine ⟨fun h => ?_, fun h => ?_, fun h => ?_, fun h => ?_, fun h => ?_⟩
  · exact ⟨"missing field \x60method\x60",
      by simp [ServerRs.deserializeOptimizerInput, h]⟩
  · exact ⟨"missing field \x60method\x60",
      by simp [MainRs.deserializeOptimizerInput, h]⟩
  · simp [ServerRs.toOptimizer, h]
  · simp [MainRs.toOptimizer, h]
  · simp [ServerRs.toOptimizer, h]

/-- C3 (witness): the amended statement evaluated on the test fixtures —
the method-less body is rejected, and the seed/mixed-stock defaults apply
to the fixture lacking those fields. -/
theorem c3_defaults_amended_witness :
    (∃ msg, ServerRs.deserializeOptimizerInput ServerRs.missingMethodBody =
      Except.error msg) ∧
    (∃ msg, MainRs.deserializeOptimizerInput MainRs.missingMethodBody =
      Except.error msg) ∧
    (ServerRs.toOptimizer ServerRs.noSeedInput).random_seed = 1 ∧
    (MainRs.toOptimizer MainRs.noSeedInput).random_seed = 1 ∧
    (ServerRs.toOptimizer ServerRs.noSeedInput).allow_mixed_stock_sizes = true := by
  have h := c3_defaults_amended ServerRs.missingMethodBody MainRs.missingMethodBody
    ServerRs.noSeedInput MainRs.noSeedInput
  exact ⟨h.1 rfl, h.2.1 rfl, h.2.2.1 rfl, h.2.2.2.1 rfl, h.2.2.2.2 rfl⟩

/-- C4 (counterexample): in the axum revision, the 422 no-fit response body
for the repository's non-fitting fixture has no top-level `error` key — the
body is the flat `message`/`data` object, so the claimed `error`-wrapped
envelope is not what this revision produces. -/
theorem c4_envelope_counterexample :
    (ServerRs.optimizeStep ServerRs.sampleInput
        (.received (.noFit sampleNoFitPiece))).1.1 = 422 ∧
    ((ServerRs.optimizeStep ServerRs.sampleInput
        (.received (.noFit sampleNoFitPiece))).1.2).getField "error" = none :=
  ⟨rfl, rfl⟩

/-- C4 (amended): a no-fit engine error always yields HTTP 422 with the
offending cut piece in the body, and the piece's `externalId` round-trips:
the warp revision wraps it as `error.data.externalId` inside the `ApiError`
envelope, while the axum revision exposes it as `data.externalId` of a flat
`message`/`data` object with no outer `error` key. -/
theorem c4_no_fit_amended :
    ∀ (inp : ServerRs.OptimizerInput) (inpM : MainRs.OptimizerInput) (cp : CutPiece),
      (ServerRs.optimizeStep inp (.received (.noFit cp))).1.1 = 422 ∧
      (((ServerRs.optimizeStep inp (.received (.noFit cp))).1.2).getField "data").bind
          (fun d => d.getField "externalId") = some (.num cp.externalId) ∧
      (MainRs.optimizeHandler inpM (.received (.noFit cp))).1.1 = 422 ∧
      ((((MainRs.optimizeHandler inpM (.received (.noFit cp))).1.2).getField "error").bind
          (fun d => d.getField "data")).bind
          (fun d => d.getField "externalId") = some (.num cp.externalId) := by
  intro inp inpM cp
  exact ⟨rfl, rfl, rfl, rfl⟩

/-- C5 (counterexample): on the channel-closed path neither revision's
handler emits any log record — the failure is returned to the client but not
logged at error severity (the only `error!` in either `optimize` sits in the
worker closure and fires for the opposite failure, a dropped receiver). -/
theorem c5_no_error_log_counterexample :
    (ServerRs.optimizeStep ServerRs.sampleInput ChannelOutcome.closed).2 = [] ∧
    (MainRs.optimizeHandler MainRs.sampleInput ChannelOutcome.closed).2 = [] :=
  ⟨rfl, rfl⟩

/-- C5 (amended): when the completion channel closes before the worker sends
a result, the client receives HTTP 500 with an envelope whose `data` field
is the channel error's description ("channel closed"); the handler surfaces
the failure to the client but writes no error-severity log record of its
own. -/
theorem c5_channel_closed_amended :
    ∀ (inp : ServerRs.OptimizerInput) (inpM : MainRs.OptimizerInput),
      ServerRs.optimizeStep inp ChannelOutcome.closed =
        ((500, Json.obj
            [("message", Json.str "Couldn\x27t receive result from channel"),
             ("data", Json.str recvErrorDescription)]), []) ∧
      MainRs.optimizeHandler inpM ChannelOutcome.closed =
        ((500, Json.obj
            [("error", Json.obj
              [("message", Json.str "Couldn\x27t receive result from channel"),
               ("data", Json.str recvErrorDescription)])]), []) := by
  intro inp inpM
  exact ⟨rfl, rfl⟩

/-- C6: in both revisions the worker closure's send is a best-effort,
fire-and-forget step: with the receiver gone it delivers nothing and emits
exactly one error-severity log record before returning normally (it is a
total function — no panic, no error escalated out of the worker), and with a
live receiver it delivers the engine result and logs nothing. -/
theorem c6_worker_send_best_effort :
    ∀ (runGuillotine runNested : Optimizer → EngineResult)
      (inp : ServerRs.OptimizerInput) (inpM : MainRs.OptimizerInput),
      ServerRs.workerClosure runGuillotine runNested inp false =
        (none, [{ level := .error, msg := recvClosedLogMsg }]) ∧
      MainRs.workerClosure runGuillotine runNested inpM false =
        (none, [{ level := .error, msg := recvClosedLogMsg }]) ∧
      ServerRs.workerClosure runGuillotine runNested inp true =
        (some (ServerRs.workerResult runGuillotine runNested inp), []) ∧
      MainRs.workerClosure runGuillotine runNested inpM true =
        (some (MainRs.workerResult runGuillotine runNested inpM), []) := by
  intro runGuillotine runNested inp inpM
  exact ⟨rfl, rfl, rfl, rfl⟩

/-- C7: the warp revision's default body limit is 32896 bytes, and any
POST /optimize request whose content length exceeds the configured maximum
is answered with 413 (payload too large) for every possible body — well
formed, schema-violating or unparseable alike — because the
`content_length_limit` filter sits before `warp::body::json` in the chain,
so the limit is enforced before any JSON parsing. -/
theorem c7_payload_too_large :
    MainRs.defaultOpt.max_content_length = 32896 ∧
    ∀ (maxContentLength : Nat) (req : MainRs.HttpRequest),
      req.path = ["optimize"] → req.method = MainRs.HttpMethod.post →
      maxContentLength < req.contentLength →
      ∀ body, MainRs.optimizeFilter maxContentLength { req with body := body } =
        MainRs.FilterOutcome.payloadTooLarge := by
  refine ⟨rfl, ?_⟩
  intro maxContentLength req hpath hmeth hlen body
  simp [MainRs.optimizeFilter, hpath, hmeth, Nat.not_le.mpr hlen]

/-- C7 (witness): with the spec's suggested deliberately small limit of 100
bytes, a 101-byte POST /optimize request with an unparseable body is
rejected with 413. -/
theorem c7_payload_too_large_witness :
    MainRs.optimizeFilter 100 MainRs.oversizedRequest =
      MainRs.FilterOutcome.payloadTooLarge :=
  c7_payload_too_large.2 100 MainRs.oversizedRequest rfl rfl (by decide)
    MainRs.oversizedRequest.body

/-- C8 (counterexample): the default listen host of the `Opt` under `src/`
is `127.0.0.1`, not the claimed `0.0.0.0`. -/
theorem c8_default_ip_counterexample :
    MainRs.defaultOpt.ip = "127.0.0.1" ∧ MainRs.defaultOpt.ip ≠ "0.0.0.0" :=
  ⟨rfl, by decide⟩

/-- C8 (amended): when not supplied, the warp revision's options (in `src/`)
default to listen host `127.0.0.1`, port 3030 and max request body 32896
bytes; the per-request timeout of 60 seconds and the cap of 100 concurrent
requests are defaults of the axum revision's `Opt`, which is not under
`src/` and is modelled from the spec (along with its `0.0.0.0` host). -/
theorem c8_defaults_amended :
    MainRs.defaultOpt =
      { ip := "127.0.0.1", port := 3030, max_content_length := 32896,
        quiet := false, verbose := 0 } ∧
    ServerRs.defaultOptAxum.timeout = 60 ∧
    ServerRs.defaultOptAxum.max_requests = 100 ∧
    ServerRs.defaultOptAxum.ip = "0.0.0.0" ∧
    ServerRs.defaultOptAxum.port = 3030 :=
  ⟨rfl, rfl, rfl, rfl, rfl⟩

/-- C9 (counterexample): when the socket-address parse fails, startup writes
no error log record at all — `socket_address` unwraps the parse result, so
the process panics instead of logging; the claim's "logs an error" is false. -/
theorem c9_no_log_counterexample :
    (MainRs.runMain none).errorLogs = [] ∧
    (MainRs.runMain none).outcome = MainRs.ProcOutcome.panicked :=
  ⟨rfl, rfl⟩

/-- C9 (amended): if the configured host and port do not parse into a valid
socket address at startup, the process panics (the parse result is
unwrapped) and exits without serving any requests and without writing a log
record; on a successful parse it proceeds to serve. -/
theorem c9_parse_failure_amended :
    MainRs.runMain none =
      { outcome := .panicked, errorLogs := [], served := false } ∧
    ∀ addr, (MainRs.runMain (some addr)).served = true :=
  ⟨rfl, fun _ => rfl⟩

/-- C10: for every decoded input and every completion-channel outcome, both
revisions' optimize handlers produce a reply whose status is one of 200, 422
or 500 — the handlers are total functions (the warp revision's error type is
`Infallible`, and the match over engine errors is exhaustive), so no input
or channel outcome makes the handler itself fail. -/
theorem c10_handler_total :
    ∀ (inp : ServerRs.OptimizerInput) (inpM : MainRs.OptimizerInput)
      (co : ChannelOutcome),
      ((ServerRs.optimizeStep inp co).1.1 = 200 ∨
        (ServerRs.optimizeStep inp co).1.1 = 422 ∨
        (ServerRs.optimizeStep inp co).1.1 = 500) ∧
      ((MainRs.optimizeHandler inpM co).1.1 = 200 ∨
        (MainRs.optimizeHandler inpM co).1.1 = 422 ∨
        (MainRs.optimizeHandler inpM co).1.1 = 500) := by
  intro inp inpM co
  match co with
  | .closed => exact ⟨Or.inr (Or.inr rfl), Or.inr (Or.inr rfl)⟩
  | .received (.ok s) => exact ⟨Or.inl rfl, Or.inl rfl⟩
  | .received (.noFit cp) => exact ⟨Or.inr (Or.inl rfl), Or.inr (Or.inl rfl)⟩
